import Mathlib

/-!
Shallow embedding of the CommitLabs contracts
(`contracts/commitment_core/src/lib.rs` and
`contracts/attestation_engine/src/lib.rs`) together with proofs about the
claims of the natural-language specification.

Machine integers are modelled as `Int` (for Rust `i128` / `i32`, with the
checked/wrapping operations made explicit) and `Nat` (for `u32` / `u64`
values, which the contracts never drive near their bounds).  Soroban
`String` / `Symbol` values are Lean `String`s, `Address`es are `Nat`s.
Storage is explicit state passing; a Soroban panic is an error result that
carries the state at the moment of the panic.
-/

/- ------------------------------------------------------------------
   Checked / wrapping machine arithmetic (Rust semantics)
   ------------------------------------------------------------------ -/

/-- Smallest `i128` value. -/
def i128Min : Int := -(2 ^ 127)

/-- Largest `i128` value. -/
def i128Max : Int := 2 ^ 127 - 1

/-- Does an integer fit in `i128`? -/
def fitsI128 (x : Int) : Bool := i128Min ≤ x && x ≤ i128Max

/-- Rust `i128::checked_sub`. -/
def checkedSub128 (a b : Int) : Option Int :=
  if fitsI128 (a - b) then some (a - b) else none

/-- Rust `i128::checked_add`. -/
def checkedAdd128 (a b : Int) : Option Int :=
  if fitsI128 (a + b) then some (a + b) else none

/-- Rust `i128::checked_mul`. -/
def checkedMul128 (a b : Int) : Option Int :=
  if fitsI128 (a * b) then some (a * b) else none

/-- Rust `i128::checked_div` (truncating division; fails on division by
zero and on `i128::MIN / -1`). -/
def checkedDiv128 (a b : Int) : Option Int :=
  if b = 0 then none
  else if a = i128Min && b = -1 then none
  else some (Int.tdiv a b)

/-- Rust `as i32` cast of a wider integer: wrap modulo `2^32` into
`[-2^31, 2^31)`. -/
def wrapI32 (x : Int) : Int := (x + 2 ^ 31) % 2 ^ 32 - 2 ^ 31

/-- Does an integer fit in `i32`? -/
def fitsI32 (x : Int) : Bool := -(2 ^ 31) ≤ x && x ≤ 2 ^ 31 - 1

/-- Rust `i32::checked_sub`. -/
def checkedSub32 (a b : Int) : Option Int :=
  if fitsI32 (a - b) then some (a - b) else none

/-- Rust `i32::checked_add`. -/
def checkedAdd32 (a b : Int) : Option Int :=
  if fitsI32 (a + b) then some (a + b) else none

/-- Rust `i32::checked_mul`. -/
def checkedMul32 (a b : Int) : Option Int :=
  if fitsI32 (a * b) then some (a * b) else none

namespace Core

/- ------------------------------------------------------------------
   Data model of `contracts/commitment_core/src/lib.rs`
   ------------------------------------------------------------------ -/

/-- The `CommitmentRules` from `commitment_core/src/lib.rs`. -/
structure CommitmentRules where
  duration_days : Nat
  max_loss_percent : Nat
  commitment_type : String
  early_exit_penalty : Nat
  min_fee_threshold : Int
  grace_period_days : Nat
deriving Repr, DecidableEq

/-- The `Commitment` from `commitment_core/src/lib.rs`. -/
structure Commitment where
  commitment_id : String
  owner : Nat
  nft_token_id : Nat
  rules : CommitmentRules
  amount : Int
  asset_address : Nat
  created_at : Nat
  expires_at : Nat
  current_value : Int
  status : String
deriving Repr, DecidableEq

/-- Instance storage of the commitment-core contract.  Each field models
one storage key family; `Option` marks keys that may be absent (reads of
which `unwrap` / fall back to a default exactly as the source does). -/
structure CoreState where
  /-- The `DataKey::Commitment(id)` map, as a list keyed by `commitment_id`. -/
  commMap : List Commitment
  /-- The `COMMITMENTS_KEY` (`"COMMS"`) vector used by the first draft half of
  `create_commitment`; absent unless the first `initialize` draft ran. -/
  commVec : Option (List Commitment)
  /-- The `DataKey::ReentrancyGuard` (absent reads as `false`). -/
  guard : Bool
  /-- The `DataKey::TotalCommitments` (absent reads as `0`). -/
  totalCommitments : Nat
  /-- The `DataKey::TotalValueLocked` (absent reads as `0`). -/
  tvl : Int
  /-- The `DataKey::NftContract`. -/
  nftContract : Option Nat
  /-- The `NFT_KEY` (`"NFT"`), the key written by the first `initialize` draft. -/
  nftKeyAddr : Option Nat
  /-- The `DataKey::OwnerCommitments(owner)` index. -/
  ownerIdx : List (Nat × List String)
deriving Repr, DecidableEq

/-- The `read_commitment`: look up `DataKey::Commitment(id)`. -/
def readCommitment (s : CoreState) (commitment_id : String) : Option Commitment :=
  s.commMap.find? (fun c => c.commitment_id = commitment_id)

/-- The `set_commitment`: overwrite the entry with the same id, or insert. -/
def setEntry : List Commitment → Commitment → List Commitment
  | [], c => [c]
  | x :: xs, c =>
      if x.commitment_id = c.commitment_id then c :: xs else x :: setEntry xs c

/-- The `has_commitment`. -/
def hasCommitment (s : CoreState) (commitment_id : String) : Bool :=
  (readCommitment s commitment_id).isSome

/-- Read `DataKey::OwnerCommitments(owner)` with `unwrap_or(Vec::new)`. -/
def ownerCommitments (s : CoreState) (owner : Nat) : List String :=
  match s.ownerIdx.find? (fun p => p.1 = owner) with
  | some p => p.2
  | none => []

/-- Write `DataKey::OwnerCommitments(owner)`. -/
def setOwnerIdx : List (Nat × List String) → Nat → List String → List (Nat × List String)
  | [], o, l => [(o, l)]
  | x :: xs, o, l => if x.1 = o then (o, l) :: xs else x :: setOwnerIdx xs o l

/-- Modelled from the spec: `SafeMath::loss_percent` of the shared-utils
math module (the module file is not in the repository snapshot).  The spec
defines it as `floor((amount - current_value) * 100 / amount)`. -/
def lossPercentSafe (amount current_value : Int) : Int :=
  Int.fdiv ((amount - current_value) * 100) amount

/-- Modelled from the spec: `SafeMath::penalty_amount` of the shared-utils
math module (not in the snapshot): `floor(value * percent / 100)`. -/
def penaltyAmount (value : Int) (percent : Nat) : Int :=
  Int.fdiv (value * (percent : Int)) 100

/-- Modelled from the spec: `Validation::require_valid_duration` — checked
validator, aborts unless `duration_days > 0`. -/
def validDuration (duration_days : Nat) : Bool := duration_days > 0

/-- Modelled from the spec: `Validation::require_valid_percent` — aborts
unless the percentage is between 0 and 100. -/
def validPercent (p : Nat) : Bool := p ≤ 100

/-- The `validate_rules` (`commitment_core/src/lib.rs`): duration, percent and
commitment-type validation, the type drawn from
`{"safe", "balanced", "aggressive"}`. -/
def validateRules (rules : CommitmentRules) : Bool :=
  validDuration rules.duration_days &&
  validPercent rules.max_loss_percent &&
  (rules.commitment_type = "safe" || rules.commitment_type = "balanced" ||
    rules.commitment_type = "aggressive")

/-- The `generate_commitment_id` (`commitment_core/src/lib.rs` lines 214-223):
reads the total-commitments counter into `_counter` but ignores it and
returns the constant string `"commitment_"`. -/
def generate_commitment_id (_counter : Nat) : String :=
  "commitment_"

/-- The `check_violations` (`commitment_core/src/lib.rs` lines 558-599).
Returns `none` when the commitment does not exist (panic in the source). -/
def check_violations (s : CoreState) (commitment_id : String) (now : Nat) :
    Option Bool :=
  match readCommitment s commitment_id with
  | none => none
  | some commitment =>
    if commitment.status ≠ "active" then some false
    else
      let loss_percent : Int :=
        if commitment.amount > 0 then
          lossPercentSafe commitment.amount commitment.current_value
        else 0
      let max_loss : Int := (commitment.rules.max_loss_percent : Int)
      let loss_violated := loss_percent > max_loss
      let duration_violated := now ≥ commitment.expires_at
      some (loss_violated || duration_violated)

/-- The `get_violation_details` (`commitment_core/src/lib.rs` lines 603-637).
Result components: `(has_violations, loss_violated, duration_violated,
loss_percent, time_remaining)`; `none` when the commitment is missing. -/
def get_violation_details (s : CoreState) (commitment_id : String) (now : Nat) :
    Option (Bool × Bool × Bool × Int × Nat) :=
  match readCommitment s commitment_id with
  | none => none
  | some commitment =>
    let loss_amount := commitment.amount - commitment.current_value
    let loss_percent : Int :=
      if commitment.amount > 0 then
        Int.tdiv (loss_amount * 100) commitment.amount
      else 0
    let max_loss : Int := (commitment.rules.max_loss_percent : Int)
    let loss_violated := loss_percent > max_loss
    let duration_violated := now ≥ commitment.expires_at
    let time_remaining : Nat :=
      if now < commitment.expires_at then commitment.expires_at - now else 0
    let has_violations := loss_violated || duration_violated
    some (has_violations, loss_violated, duration_violated, loss_percent,
      time_remaining)

/-- One observable step of a state-mutating entry point, used to express
the checks-effects-interactions ordering: a local storage write or an
external contract interaction. -/
inductive Action where
  /-- write of the `COMMITMENTS_KEY` vector -/
  | writeCommVec
  /-- The `set_commitment` write of a `DataKey::Commitment` entry -/
  | writeCommitment
  /-- write of the owner's `DataKey::OwnerCommitments` index -/
  | writeOwnerIdx
  /-- write of the `DataKey::TotalCommitments` counter -/
  | writeTotal
  /-- write of the `DataKey::TotalValueLocked` counter -/
  | writeTvl
  /-- external token `transfer(from, to, amount)` -/
  | extTransfer (src dst : Nat) (amount : Int)
  /-- external NFT `mint` invocation -/
  | extMint (owner : Nat)
  /-- external NFT `settle(token_id)` invocation -/
  | extNftSettle (token_id : Nat)
deriving Repr, DecidableEq

/-- Is the action a local state write? -/
def Action.isWrite : Action → Bool
  | .writeCommVec | .writeCommitment | .writeOwnerIdx | .writeTotal
  | .writeTvl => true
  | _ => false

/-- Is the action an external interaction? -/
def Action.isExt : Action → Bool
  | .extTransfer _ _ _ | .extMint _ | .extNftSettle _ => true
  | _ => false

/-- Checks-effects-interactions order over an action trace: every local
state write happens before any external call, i.e. once an external call
has happened no write follows. -/
def ceiOrdered (trace : List Action) : Bool :=
  !((trace.dropWhile (fun a => !a.isExt)).any Action.isWrite)

/-- Outcome of one entry-point call: the storage state when control leaves
the contract, the ordered trace of writes/interactions performed up to
that point, the panic message (if the call aborted), and the returned
commitment id (for `create_commitment`). -/
structure CallResult where
  state : CoreState
  trace : List Action
  err : Option String
  ret : Option String
deriving Repr, DecidableEq

/-- The distinguished address of the contract itself
(`e.current_contract_address()`). -/
def contractAddr : Nat := 0

/-- The `settle` (`commitment_core/src/lib.rs` lines 643-713).  External calls
are modelled as succeeding and recorded in the trace; every panic in the
source becomes an `err`, with `state` the storage at the moment control
leaves the contract. -/
def settle (s : CoreState) (commitment_id : String) (now : Nat) : CallResult :=
  if s.guard then
    { state := s, trace := [], err := some "Reentrancy detected", ret := none }
  else
    let s1 : CoreState := { s with guard := true }
    match readCommitment s1 commitment_id with
    | none =>
        { state := { s1 with guard := false }, trace := [],
          err := some "Commitment not found", ret := none }
    | some commitment =>
      if now < commitment.expires_at then
        { state := { s1 with guard := false }, trace := [],
          err := some "Commitment has not expired yet", ret := none }
      else if commitment.status ≠ "active" then
        { state := { s1 with guard := false }, trace := [],
          err := some "Commitment is not active", ret := none }
      else
        let settlement_amount := commitment.current_value
        let settled := { commitment with status := "settled" }
        let s2 : CoreState := { s1 with commMap := setEntry s1.commMap settled }
        let s3 : CoreState := { s2 with tvl := s2.tvl - settlement_amount }
        let trace1 : List Action :=
          [Action.writeCommitment, Action.writeTvl,
            Action.extTransfer contractAddr commitment.owner settlement_amount]
        match s3.nftContract with
        | none =>
            { state := { s3 with guard := false }, trace := trace1,
              err := some "NFT contract not initialized", ret := none }
        | some _ =>
            { state := { s3 with guard := false },
              trace := trace1 ++ [Action.extNftSettle commitment.nft_token_id],
              err := none, ret := none }

/-- The `early_exit` (`commitment_core/src/lib.rs` lines 719-777). -/
def early_exit (s : CoreState) (commitment_id : String) (caller : Nat)
    (_now : Nat) : CallResult :=
  if s.guard then
    { state := s, trace := [], err := some "Reentrancy detected", ret := none }
  else
    let s1 : CoreState := { s with guard := true }
    match readCommitment s1 commitment_id with
    | none =>
        { state := { s1 with guard := false }, trace := [],
          err := some "Commitment not found", ret := none }
    | some commitment =>
      if commitment.owner ≠ caller then
        { state := { s1 with guard := false }, trace := [],
          err := some "Unauthorized: caller is not the owner", ret := none }
      else if commitment.status ≠ "active" then
        { state := { s1 with guard := false }, trace := [],
          err := some "Commitment is not active", ret := none }
      else
        let penalty_amount :=
          penaltyAmount commitment.current_value commitment.rules.early_exit_penalty
        let returned_amount := commitment.current_value - penalty_amount
        let exited := { commitment with status := "early_exit" }
        let s2 : CoreState := { s1 with commMap := setEntry s1.commMap exited }
        let s3 : CoreState := { s2 with tvl := s2.tvl - commitment.current_value }
        { state := { s3 with guard := false },
          trace := [Action.writeCommitment, Action.writeTvl,
            Action.extTransfer contractAddr commitment.owner returned_amount],
          err := none, ret := none }

/-- The `create_commitment` (`commitment_core/src/lib.rs` lines 286-465), the
merged function exactly as written: it first transfers the asset and mints
the NFT, pushes a record onto the `COMMITMENTS_KEY` vector, and only then
runs the reentrancy-guarded checks-effects-interactions half.  `now` is
the ledger timestamp, `mintResult1`/`mintResult2` the token ids returned
by the two external mint invocations, and `rateLimitOk` the outcome of the
spec-modelled `RateLimiter::check` (rate-limiting module not in the
snapshot; per the spec it aborts when the caller's quota is exhausted). -/
def create_commitment (s : CoreState) (owner : Nat) (amount : Int)
    (asset_address : Nat) (rules : CommitmentRules) (now : Nat)
    (mintResult1 mintResult2 : Nat) (rateLimitOk : Bool) : CallResult :=
  if amount ≤ 0 then
    { state := s, trace := [], err := some "Invalid amount", ret := none }
  else
    let expires_at1 := now + rules.duration_days * 86400
    let commitment_id1 : String := "commitment"
    -- Transfer asset into contract (external, before any state write)
    let trace0 : List Action := [Action.extTransfer owner contractAddr amount]
    match s.nftKeyAddr with
    | none => { state := s, trace := trace0, err := some "unwrap NFT_KEY", ret := none }
    | some _nftAddr1 =>
      let trace1 := trace0 ++ [Action.extMint owner]
      match s.commVec with
      | none => { state := s, trace := trace1, err := some "unwrap COMMS", ret := none }
      | some vec =>
        let entry1 : Commitment :=
          { commitment_id := commitment_id1, owner := owner,
            nft_token_id := mintResult1, rules := rules, amount := amount,
            asset_address := asset_address, created_at := now,
            expires_at := expires_at1, current_value := amount,
            status := "active" }
        let sA : CoreState := { s with commVec := some (vec ++ [entry1]) }
        let trace2 := trace1 ++ [Action.writeCommVec]
        -- Reentrancy protection (checked only here, after the first half)
        if sA.guard then
          { state := sA, trace := trace2, err := some "Reentrancy detected",
            ret := none }
        else
          let sB : CoreState := { sA with guard := true }
          -- Rate limit: panics without clearing the guard
          if !rateLimitOk then
            { state := sB, trace := trace2, err := some "Rate limit exceeded",
              ret := none }
          -- Validation::require_positive: panics without clearing the guard
          else if amount ≤ 0 then
            { state := sB, trace := trace2, err := some "Amount must be positive",
              ret := none }
          -- validate_rules: panics without clearing the guard
          else if !validateRules rules then
            { state := sB, trace := trace2, err := some "Invalid rules",
              ret := none }
          else
            let commitment_id := generate_commitment_id sB.totalCommitments
            match sB.nftContract with
            | none =>
                { state := { sB with guard := false }, trace := trace2,
                  err := some "Contract not initialized", ret := none }
            | some _nftAddr2 =>
              if hasCommitment sB commitment_id then
                { state := { sB with guard := false }, trace := trace2,
                  err := some "Commitment already exists", ret := none }
              else
                let expires_at := now + rules.duration_days * 86400
                let commitment : Commitment :=
                  { commitment_id := commitment_id, owner := owner,
                    nft_token_id := 0, rules := rules, amount := amount,
                    asset_address := asset_address, created_at := now,
                    expires_at := expires_at, current_value := amount,
                    status := "active" }
                -- EFFECTS of the guarded half
                let sC : CoreState :=
                  { sB with commMap := setEntry sB.commMap commitment }
                let newIdx :=
                  setOwnerIdx sC.ownerIdx owner
                    (ownerCommitments sC owner ++ [commitment_id])
                let sD : CoreState := { sC with ownerIdx := newIdx }
                let sE : CoreState :=
                  { sD with totalCommitments := sD.totalCommitments + 1 }
                let sF : CoreState := { sE with tvl := sE.tvl + amount }
                let trace3 := trace2 ++
                  [Action.writeCommitment, Action.writeOwnerIdx,
                    Action.writeTotal, Action.writeTvl]
                -- INTERACTIONS of the guarded half
                let trace4 := trace3 ++
                  [Action.extTransfer owner contractAddr amount,
                    Action.extMint owner]
                let updated := { commitment with nft_token_id := mintResult2 }
                let sG : CoreState :=
                  { sF with commMap := setEntry sF.commMap updated }
                { state := { sG with guard := false },
                  trace := trace4 ++ [Action.writeCommitment],
                  err := none, ret := some commitment_id }

end Core

namespace AE

/- ------------------------------------------------------------------
   Data model of `contracts/attestation_engine/src/lib.rs`
   ------------------------------------------------------------------ -/

/-- The `Attestation` from `attestation_engine/src/lib.rs` (commitment ids are
`u32` in this contract; the `Map<String, String>` annotation map is a list
of pairs). -/
structure Attestation where
  commitment_id : Nat
  timestamp : Nat
  attestation_type : String
  data : List (String × String)
  is_compliant : Bool
  verified_by : Nat
deriving Repr, DecidableEq

/-- The `CommitmentRules` as redeclared in `attestation_engine/src/lib.rs`
(this contract's copy has no `grace_period_days` field). -/
structure CommitmentRules where
  duration_days : Nat
  max_loss_percent : Nat
  commitment_type : String
  early_exit_penalty : Nat
  min_fee_threshold : Int
deriving Repr, DecidableEq

/-- The `Commitment` as redeclared in `attestation_engine/src/lib.rs`. -/
structure Commitment where
  commitment_id : Nat
  owner : Nat
  nft_token_id : Nat
  rules : CommitmentRules
  amount : Int
  asset_address : Nat
  created_at : Nat
  expires_at : Nat
  current_value : Int
  status : String
deriving Repr, DecidableEq

/-- The `HealthMetrics` from `attestation_engine/src/lib.rs`. -/
structure HealthMetrics where
  commitment_id : Nat
  current_value : Int
  initial_value : Int
  drawdown_percent : Int
  fees_generated : Int
  volatility_exposure : Int
  last_attestation : Nat
  compliance_score : Nat
deriving Repr, DecidableEq

/-- The `load_or_create_health_metrics`. -/
def loadOrCreateMetrics (stored : Option HealthMetrics) (commitment_id : Nat) :
    HealthMetrics :=
  match stored with
  | some m => m
  | none =>
      { commitment_id := commitment_id, current_value := 0, initial_value := 0,
        drawdown_percent := 0, fees_generated := 0, volatility_exposure := 0,
        last_attestation := 0, compliance_score := 100 }

/-- The drawdown-percent computation repeated in `get_health_metrics`,
`record_drawdown` and `calculate_compliance_score`:
`initial.checked_sub(current).unwrap_or(0)` then `checked_mul(100)` then
`checked_div(initial)`, each `unwrap_or(0)`, guarded by `initial > 0`. -/
def drawdownPercent (initial_value current_value : Int) : Int :=
  if initial_value > 0 then
    let diff := (checkedSub128 initial_value current_value).getD 0
    ((checkedMul128 diff 100).getD 0 |> fun p =>
      (checkedDiv128 p initial_value).getD 0)
  else 0

/-- The `attest` (`attestation_engine/src/lib.rs` lines 145-174): appends an
attestation with `timestamp = now` and `is_compliant = true` to the stored
vector for `commitment_id` and returns the new vector. -/
def attest (atts : List Attestation) (commitment_id : Nat)
    (attestation_type : String) (data : List (String × String))
    (verified_by : Nat) (now : Nat) : List Attestation :=
  atts ++ [{ commitment_id := commitment_id,
             attestation_type := attestation_type, data := data,
             timestamp := now, verified_by := verified_by,
             is_compliant := true }]

/-- The `calculate_compliance_score` (`attestation_engine/src/lib.rs` lines
421-506), as a function of the commitment fetched from the core contract,
the stored attestation vector, the stored cumulative fees and the ledger
time.  All checked/wrapping `i32`/`i128` steps of the source are kept. -/
def calculate_compliance_score (commitment : Commitment)
    (atts : List Attestation) (total_fees : Int) (now : Nat) : Nat :=
  let score0 : Int := 100
  let violation_count : Int :=
    wrapI32 ((atts.countP (fun att =>
      !att.is_compliant || att.attestation_type = "violation") : Int))
  let score1 : Int :=
    (checkedSub32 score0 ((checkedMul32 violation_count 20).getD 0)).getD 0
  let initial_value := commitment.amount
  let current_value := commitment.current_value
  let max_loss_percent : Int := (commitment.rules.max_loss_percent : Int)
  let score2 : Int :=
    if initial_value > 0 then
      let dd := drawdownPercent initial_value current_value
      if dd > max_loss_percent then
        let over_threshold := (checkedSub128 dd max_loss_percent).getD 0
        (checkedSub32 score1 (wrapI32 over_threshold)).getD 0
      else score1
    else score1
  let min_fee_threshold := commitment.rules.min_fee_threshold
  let score3 : Int :=
    if min_fee_threshold > 0 && total_fees > 0 then
      let fee_percent :=
        ((checkedMul128 total_fees 100).getD 0 |> fun p =>
          (checkedDiv128 p min_fee_threshold).getD 0)
      let bonus : Int := if fee_percent > 100 then 100 else fee_percent
      (checkedAdd32 score2 (wrapI32 bonus)).getD 100
    else score2
  let score4 : Int :=
    if commitment.expires_at > commitment.created_at then
      let total_duration := commitment.expires_at - commitment.created_at
      let elapsed := now - commitment.created_at
      let expected_progress := elapsed * 100 / total_duration
      if expected_progress ≤ 100 then (checkedAdd32 score3 10).getD 100
      else score3
    else score3
  let clamped : Int := if score4 < 0 then 0 else if score4 > 100 then 100 else score4
  clamped.toNat

/-- The `verify_compliance` (`attestation_engine/src/lib.rs` lines 242-257):
false if any stored attestation has `is_compliant = false` or the health
metrics' drawdown percent (computed from the live commitment) exceeds
100. -/
def verify_compliance (commitment : Commitment) (atts : List Attestation) :
    Bool :=
  atts.all (fun att => att.is_compliant) &&
  !(drawdownPercent commitment.amount commitment.current_value > 100)

/-- The `record_drawdown` (`attestation_engine/src/lib.rs` lines 311-418), as
a function of the stored attestation vector, the stored metrics, the
commitment fetched from the core contract, the stored cumulative fees and
the ledger time.  `authorized` is the outcome of
`is_authorized_recorder`; an unauthorized caller panics (`none`).
Returns the new attestation vector and stored health metrics. -/
def record_drawdown (authorized : Bool) (commitment : Commitment)
    (atts : List Attestation) (storedMetrics : Option HealthMetrics)
    (total_fees : Int) (commitment_id : Nat) (caller : Nat)
    (current_value : Int) (now : Nat) :
    Option (List Attestation × HealthMetrics) :=
  if !authorized then none
  else
    let initial_value := commitment.amount
    let drawdown_percent := drawdownPercent initial_value current_value
    let metrics0 := loadOrCreateMetrics storedMetrics commitment_id
    let metrics1 :=
      { metrics0 with
        current_value := current_value,
        initial_value := initial_value, drawdown_percent := drawdown_percent }
    let max_loss_percent : Int := (commitment.rules.max_loss_percent : Int)
    let is_violation := drawdown_percent > max_loss_percent
    let atts1 :=
      if is_violation then
        atts ++ [{ commitment_id := commitment_id,
                   attestation_type := "violation", data := [],
                   timestamp := now, verified_by := caller,
                   is_compliant := false }]
      else atts
    let atts2 :=
      atts1 ++ [{ commitment_id := commitment_id,
                  attestation_type := "drawdown", data := [],
                  timestamp := now, verified_by := caller,
                  is_compliant := !is_violation }]
    let newScore := calculate_compliance_score commitment atts2 total_fees now
    let metrics2 :=
      { metrics1 with compliance_score := newScore, last_attestation := now }
    some (atts2, metrics2)

/-- The `record_fees` (`attestation_engine/src/lib.rs` lines 265-303):
authorized caller, positive fee, checked accumulation, then an `attest`
call with type `"fee_generation"`.  Returns the new fee total, the new
attestation vector and the stored metrics. -/
def record_fees (authorized : Bool) (commitment : Commitment)
    (atts : List Attestation) (storedMetrics : Option HealthMetrics)
    (total_fees : Int) (commitment_id : Nat) (caller : Nat)
    (fee_amount : Int) (now : Nat) :
    Option (Int × List Attestation × HealthMetrics) :=
  if !authorized then none
  else if fee_amount ≤ 0 then none
  else
    match checkedAdd128 total_fees fee_amount with
    | none => none
    | some new_total =>
      let atts1 := attest atts commitment_id "fee_generation"
        [("fee_amount", "recorded")] caller now
      let metrics0 := loadOrCreateMetrics storedMetrics commitment_id
      let newScore := calculate_compliance_score commitment atts1 new_total now
      let metrics1 :=
        { metrics0 with
          fees_generated := new_total,
          compliance_score := newScore, last_attestation := now }
      some (new_total, atts1, metrics1)

/-- The compliance-score formula exactly as the specification states it:
base 100, minus 20 per non-compliant or violation-typed attestation, minus
the loss-percent overage when the recomputed loss percent exceeds the
threshold and the amount is positive, plus the capped fee bonus when a
threshold is configured and fees are positive, plus the flat on-schedule
bonus of 10, the total clamped to `[0,100]` at the end. -/
def specComplianceScore (commitment : Commitment) (atts : List Attestation)
    (total_fees : Int) (now : Nat) : Int :=
  let vc : Int := (atts.countP (fun att =>
    !att.is_compliant || att.attestation_type = "violation") : Int)
  let lossPercent : Int :=
    Int.fdiv ((commitment.amount - commitment.current_value) * 100)
      commitment.amount
  let maxLoss : Int := (commitment.rules.max_loss_percent : Int)
  let overage : Int :=
    if commitment.amount > 0 ∧ lossPercent > maxLoss then lossPercent - maxLoss
    else 0
  let feeBonus : Int :=
    if commitment.rules.min_fee_threshold > 0 ∧ total_fees > 0 then
      min 100 (Int.fdiv (total_fees * 100) commitment.rules.min_fee_threshold)
    else 0
  let schedBonus : Int :=
    if commitment.created_at < commitment.expires_at ∧
        (now - commitment.created_at) * 100 /
          (commitment.expires_at - commitment.created_at) ≤ 100 then 10
    else 0
  max 0 (min 100 (100 - 20 * vc - overage + feeBonus + schedBonus))

/-- One call to an attestation-appending entry point of the engine, for
tracking where non-compliant attestations come from. -/
inductive AOp where
  | attestOp (commitment_id : Nat) (attestation_type : String)
      (data : List (String × String)) (verified_by : Nat) (now : Nat)
  | recordFeesOp (authorized : Bool) (commitment : Commitment)
      (commitment_id : Nat) (caller : Nat) (fee_amount : Int) (now : Nat)
  | recordDrawdownOp (authorized : Bool) (commitment : Commitment)
      (commitment_id : Nat) (caller : Nat) (current_value : Int) (now : Nat)
deriving Repr

/-- Engine storage relevant to attestation provenance: the attestation
vector, the cumulative fee accumulator and the stored metrics (all for a
single commitment key). -/
structure EngineState where
  atts : List Attestation
  fees : Int
  metrics : Option HealthMetrics
deriving Repr

/-- Run one entry-point call against the engine storage (a panicking call
leaves the storage unchanged, as the host rolls the transaction back). -/
def stepOp (s : EngineState) : AOp → EngineState
  | .attestOp cid ty data vb now =>
      { s with atts := attest s.atts cid ty data vb now }
  | .recordFeesOp auth c cid caller fee now =>
      match record_fees auth c s.atts s.metrics s.fees cid caller fee now with
      | none => s
      | some (f, a, m) => { atts := a, fees := f, metrics := some m }
  | .recordDrawdownOp auth c cid caller cv now =>
      match record_drawdown auth c s.atts s.metrics s.fees cid caller cv now with
      | none => s
      | some (a, m) => { s with atts := a, metrics := some m }

/-- Run a sequence of entry-point calls from a given storage state. -/
def runOps (s : EngineState) : List AOp → EngineState
  | [] => s
  | op :: ops => runOps (stepOp s op) ops

/-- Was the call a `record_drawdown` invocation? -/
def AOp.isDrawdownCall : AOp → Bool
  | .recordDrawdownOp _ _ _ _ _ _ => true
  | _ => false

end AE

/- ------------------------------------------------------------------
   Concrete fixtures used by witnesses and counterexamples
   ------------------------------------------------------------------ -/

namespace Fixture

/-- A representative rule set (the spec's `balanced` 30-day example with a
10% loss limit and 5% early-exit penalty). -/
def rules : Core.CommitmentRules :=
  { duration_days := 30, max_loss_percent := 10,
    commitment_type := "balanced", early_exit_penalty := 5,
    min_fee_threshold := 0, grace_period_days := 3 }

/-- An active commitment: amount 1000, current value 1000, expiring at
ledger time 2592000. -/
def comm : Core.Commitment :=
  { commitment_id := "c1", owner := 7, nft_token_id := 1, rules := rules,
    amount := 1000, asset_address := 3, created_at := 0,
    expires_at := 2592000, current_value := 1000, status := "active" }

/-- A core-contract state holding `comm`, fully initialized, guard
clear. -/
def st : Core.CoreState :=
  { commMap := [comm], commVec := some [], guard := false,
    totalCommitments := 1, tvl := 1000, nftContract := some 9,
    nftKeyAddr := some 9, ownerIdx := [(7, ["c1"])] }

/-- A freshly initialized core-contract state with no commitments (both
initialize drafts run: vector, counters and both NFT keys set). -/
def st0 : Core.CoreState :=
  { commMap := [], commVec := some [], guard := false,
    totalCommitments := 0, tvl := 0, nftContract := some 9,
    nftKeyAddr := some 9, ownerIdx := [] }

end Fixture

/- ------------------------------------------------------------------
   Claims
   ------------------------------------------------------------------ -/

/-- Claim C1: for every stored commitment, `check_violations` returns true
iff the commitment is active and (the loss percent — `floor((amount -
current_value) * 100 / amount)` when `amount > 0`, else `0` — strictly
exceeds `rules.max_loss_percent`, or `now ≥ expires_at`). -/
theorem C1_check_violations_iff (s : Core.CoreState) (id : String) (now : Nat)
    (c : Core.Commitment) (h : Core.readCommitment s id = some c) :
    Core.check_violations s id now = some true ↔
      (c.status = "active" ∧
        ((if c.amount > 0 then
            Int.fdiv ((c.amount - c.current_value) * 100) c.amount
          else 0) > (c.rules.max_loss_percent : Int) ∨
          now ≥ c.expires_at)) := by
  simp only [Core.check_violations, h, Core.lossPercentSafe]
  by_cases hs : c.status = "active"
  · simp [hs]
  · simp [hs]

/-- Witness for C1: evaluating the fixture (active, zero loss, before
expiry) the hypothesis holds and both sides are false; pushing the clock
to the expiry instant makes both sides true. -/
theorem C1_check_violations_iff_witness :
    Core.readCommitment Fixture.st "c1" = some Fixture.comm ∧
      (Core.check_violations Fixture.st "c1" 2592000 = some true ↔
        (Fixture.comm.status = "active" ∧
          ((if Fixture.comm.amount > 0 then
              Int.fdiv ((Fixture.comm.amount - Fixture.comm.current_value) * 100)
                Fixture.comm.amount
            else 0) > (Fixture.comm.rules.max_loss_percent : Int) ∨
            2592000 ≥ Fixture.comm.expires_at))) :=
  ⟨by decide,
   C1_check_violations_iff Fixture.st "c1" 2592000 Fixture.comm (by decide)⟩

/-- Claim C2 (code bug): `generate_commitment_id` reads the
total-commitments counter but ignores it, returning the constant
`"commitment_"` for every counter value, so the identifier is not
allocated from the monotonic counter; after one successful
`create_commitment` (which does increment the counter by 1), any further
call aborts with "Commitment already exists" instead of returning a fresh
identifier. -/
theorem C2_commitment_id_constant :
    Core.generate_commitment_id 0 = Core.generate_commitment_id 1 ∧
    Core.generate_commitment_id 0 = "commitment_" ∧
    (let r1 := Core.create_commitment Fixture.st0 7 1000 3 Fixture.rules 0 1 1 true
     r1.err = none ∧ r1.ret = some "commitment_" ∧
       r1.state.totalCommitments = 1 ∧
       (Core.create_commitment r1.state 8 500 3 Fixture.rules 5 1 1 true).err =
         some "Commitment already exists") := by
  refine ⟨rfl, rfl, ?_, ?_, ?_, ?_⟩ <;> decide

/-- Rules failing validation: `duration_days = 0`. -/
def Fixture.badRules : Core.CommitmentRules :=
  { Fixture.rules with duration_days := 0 }

/-- Claim C3 (code bug): `create_commitment` called with invalid rules
(`duration_days = 0`) panics inside `validate_rules` after the reentrancy
guard has been set, without clearing it, so this validation-failure exit
path leaves the guard flag `true` — while, for contrast, `settle`'s
not-yet-expired abort path does clear the guard. -/
theorem C3_guard_left_set_on_validation_failure :
    (let r := Core.create_commitment Fixture.st0 7 1000 3 Fixture.badRules 0 1 1 true
     r.err = some "Invalid rules" ∧ r.state.guard = true) ∧
    (let rs := Core.settle Fixture.st "c1" 0
     rs.err = some "Commitment has not expired yet" ∧
       rs.state.guard = false) := by
  refine ⟨⟨?_, ?_⟩, ?_, ?_⟩ <;> decide

/-- Claim C4 (code bug): a successful `create_commitment` does NOT follow
checks-effects-interactions order — its very first observable action is
the external token transfer, followed by the external NFT mint, and only
then come the local state writes, so an external interaction precedes
every local state write and `ceiOrdered` is false for its trace. -/
theorem C4_cei_order_violated :
    (let r := Core.create_commitment Fixture.st0 7 1000 3 Fixture.rules 0 1 1 true
     r.err = none ∧
       r.trace.head? = some (Core.Action.extTransfer 7 Core.contractAddr 1000) ∧
       (r.trace.any Core.Action.isWrite) = true ∧
       Core.ceiOrdered r.trace = false) := by
  refine ⟨?_, ?_, ?_, ?_⟩ <;> decide

/-- Looking up the written id after `setEntry` returns the new record,
provided the replaced record was the one the lookup previously found. -/
theorem readCommitment_setEntry (l : List Core.Commitment)
    (c c' : Core.Commitment) (id : String)
    (h : l.find? (fun x => x.commitment_id = id) = some c)
    (hc : c'.commitment_id = c.commitment_id) :
    (Core.setEntry l c').find? (fun x => x.commitment_id = id) = some c' := by
  induction l with
  | nil => simp at h
  | cons x xs ih =>
    by_cases hx : x.commitment_id = id
    · have hxc : x = c := by
        have hsome : some x = some c := by
          simpa [List.find?_cons, hx] using h
        exact Option.some_inj.mp hsome
      have hcx : c'.commitment_id = x.commitment_id := by rw [hc, hxc]
      have hstep : Core.setEntry (x :: xs) c' = c' :: xs := by
        simp [Core.setEntry, hcx.symm]
      have hp : c'.commitment_id = id := by rw [hcx, hx]
      rw [hstep, List.find?_cons]
      simp [hp]
    · have h' : xs.find? (fun y => y.commitment_id = id) = some c := by
        simpa [List.find?_cons, hx] using h
      have hcid : c.commitment_id = id := by
        simpa using List.find?_some h'
      have hne : ¬ (x.commitment_id = c'.commitment_id) := by
        rw [hc, hcid]; exact hx
      simp [Core.setEntry, hne, List.find?_cons, hx, ih h']

/-- Claim C5: `settle` aborts with no state change when the commitment is
missing, not yet expired, or not active; success implies `now ≥
expires_at` and `status = "active"`; and a successful settlement (with the
NFT contract configured) marks the commitment `"settled"`, lowers
total-value-locked by exactly `current_value`, and transfers exactly
`current_value` back to the owner — no clamping against the original
amount. -/
theorem C5_settle_contract (s : Core.CoreState) (id : String) (now : Nat)
    (hg : s.guard = false) :
    (Core.readCommitment s id = none →
      (Core.settle s id now).err.isSome ∧ (Core.settle s id now).state = s) ∧
    (∀ c : Core.Commitment, Core.readCommitment s id = some c →
      (now < c.expires_at →
        (Core.settle s id now).err.isSome ∧ (Core.settle s id now).state = s) ∧
      (c.status ≠ "active" →
        (Core.settle s id now).err.isSome ∧ (Core.settle s id now).state = s) ∧
      ((Core.settle s id now).err = none →
        now ≥ c.expires_at ∧ c.status = "active") ∧
      (now ≥ c.expires_at → c.status = "active" → s.nftContract.isSome →
        (Core.settle s id now).err = none ∧
        Core.readCommitment (Core.settle s id now).state id =
          some { c with status := "settled" } ∧
        (Core.settle s id now).state.tvl = s.tvl - c.current_value ∧
        (Core.Action.extTransfer Core.contractAddr c.owner c.current_value) ∈
          (Core.settle s id now).trace)) := by
  obtain ⟨cm, cv, g, tc, tv, nc, nk, oi⟩ := s
  simp only at hg
  subst hg
  constructor
  · intro hnone
    simp only [Core.readCommitment] at hnone
    simp [Core.settle, Core.readCommitment, hnone]
  · intro c hc
    simp only [Core.readCommitment] at hc
    refine ⟨?_, ?_, ?_, ?_⟩
    · intro hlt
      simp [Core.settle, Core.readCommitment, hc, hlt]
    · intro hst
      simp only [Core.settle, Core.readCommitment, hc]
      by_cases hlt : now < c.expires_at
      · simp [hlt]
      · simp [hlt, hst]
    · intro hok
      simp only [Core.settle, Core.readCommitment, hc] at hok
      by_cases hlt : now < c.expires_at
      · simp [hlt] at hok
      · by_cases hst : c.status = "active"
        · exact ⟨Nat.le_of_not_lt hlt, hst⟩
        · simp [hlt, hst] at hok
    · intro hge hst hnft
      have hlt : ¬ now < c.expires_at := Nat.not_lt.mpr hge
      simp only at hnft
      obtain ⟨a, ha⟩ := Option.isSome_iff_exists.mp hnft
      subst ha
      refine ⟨?_, ?_, ?_, ?_⟩ <;>
        simp [Core.settle, Core.readCommitment, hc, hlt, hst]
      exact readCommitment_setEntry cm c _ id hc rfl

/-- Witness for C5: settling the fixture exactly at expiry succeeds, marks
it settled, lowers total-value-locked from 1000 to 0 and pays out the full
current value of 1000. -/
theorem C5_settle_contract_witness :
    (Core.settle Fixture.st "c1" 2592000).err = none ∧
    Core.readCommitment (Core.settle Fixture.st "c1" 2592000).state "c1" =
      some { Fixture.comm with status := "settled" } ∧
    (Core.settle Fixture.st "c1" 2592000).state.tvl =
      Fixture.st.tvl - Fixture.comm.current_value := by
  have h := (C5_settle_contract Fixture.st "c1" 2592000 (by decide)).2
    Fixture.comm (by decide)
  have hs := h.2.2.2 (by decide) (by decide) (by decide)
  exact ⟨hs.1, hs.2.1, hs.2.2.1⟩

/-- Claim C6: a successful `early_exit` by the owner of an active
commitment computes `penalty = floor(current_value *
early_exit_penalty / 100)`, transfers `payout = current_value - penalty`
to the owner, marks the commitment `"early_exit"`, and lowers
total-value-locked by the full `current_value`, not by the payout. -/
theorem C6_early_exit_effects (s : Core.CoreState) (id : String)
    (caller now : Nat) (hg : s.guard = false) (c : Core.Commitment)
    (hc : Core.readCommitment s id = some c) (hown : c.owner = caller)
    (hst : c.status = "active") :
    (Core.early_exit s id caller now).err = none ∧
    Core.readCommitment (Core.early_exit s id caller now).state id =
      some { c with status := "early_exit" } ∧
    (Core.early_exit s id caller now).state.tvl = s.tvl - c.current_value ∧
    (Core.Action.extTransfer Core.contractAddr c.owner
        (c.current_value -
          Int.fdiv (c.current_value * (c.rules.early_exit_penalty : Int)) 100)) ∈
      (Core.early_exit s id caller now).trace := by
  obtain ⟨cm, cv, g, tc, tv, nc, nk, oi⟩ := s
  simp only at hg
  subst hg
  simp only [Core.readCommitment] at hc
  refine ⟨?_, ?_, ?_, ?_⟩ <;>
    simp [Core.early_exit, Core.readCommitment, Core.penaltyAmount, hc, hown,
      hst]
  exact readCommitment_setEntry cm c _ id hc rfl

/-- Witness for C6: the fixture commitment (current value 1000, penalty
5%) exits early with payout 950 while total-value-locked drops by the full
1000. -/
theorem C6_early_exit_effects_witness :
    (Core.early_exit Fixture.st "c1" 7 100).err = none ∧
    Core.readCommitment (Core.early_exit Fixture.st "c1" 7 100).state "c1" =
      some { Fixture.comm with status := "early_exit" } ∧
    (Core.early_exit Fixture.st "c1" 7 100).state.tvl = 1000 - 1000 ∧
    (Core.Action.extTransfer Core.contractAddr 7 950) ∈
      (Core.early_exit Fixture.st "c1" 7 100).trace := by
  have h := C6_early_exit_effects Fixture.st "c1" 7 100 (by decide)
    Fixture.comm (by decide) (by decide) (by decide)
  refine ⟨h.1, h.2.1, ?_, ?_⟩
  · exact h.2.2.1
  · have := h.2.2.2
    simpa using this

/-- For a positive divisor and a non-negative bound, floor division and
truncating division agree on the "strictly above the bound" predicate
(they coincide on non-negative numerators and are both non-positive on
negative ones). -/
theorem fdiv_nonpos_of_nonpos (num den : Int) (hnum : num ≤ 0)
    (hden : 0 < den) : num.fdiv den ≤ 0 := by
  rw [Int.fdiv_eq_ediv _ (le_of_lt hden)]
  calc num / den ≤ 0 / den := Int.ediv_le_ediv hden hnum
    _ = 0 := Int.zero_ediv den

theorem tdiv_nonpos_of_nonpos (num den : Int) (hnum : num ≤ 0)
    (hden : 0 < den) : num.tdiv den ≤ 0 := by
  have hneg : num.tdiv den = -((-num).tdiv den) := by
    rw [← Int.neg_tdiv, neg_neg]
  have hnn := Int.tdiv_nonneg (by omega : (0:Int) ≤ -num) (le_of_lt hden)
  omega

theorem wrapI32_eq_self (x : Int) (h1 : -(2 ^ 31) ≤ x) (h2 : x ≤ 2 ^ 31 - 1) :
    wrapI32 x = x := by
  unfold wrapI32
  norm_num at h1 h2 ⊢
  rw [Int.emod_eq_of_lt (by omega) (by omega)]
  omega

theorem fitsI32_true (x : Int) (h1 : -(2 ^ 31) ≤ x) (h2 : x ≤ 2 ^ 31 - 1) :
    fitsI32 x = true := by
  simp only [fitsI32, Bool.and_eq_true, decide_eq_true_eq]
  exact ⟨h1, h2⟩

theorem fitsI128_true (x : Int) (h1 : i128Min ≤ x) (h2 : x ≤ i128Max) :
    fitsI128 x = true := by
  simp only [fitsI128, Bool.and_eq_true, decide_eq_true_eq]
  exact ⟨h1, h2⟩

theorem checkedSub128_eq (a b : Int) (h1 : i128Min ≤ a - b)
    (h2 : a - b ≤ i128Max) : checkedSub128 a b = some (a - b) := by
  simp [checkedSub128, fitsI128_true _ h1 h2]

theorem checkedMul128_eq (a b : Int) (h1 : i128Min ≤ a * b)
    (h2 : a * b ≤ i128Max) : checkedMul128 a b = some (a * b) := by
  simp [checkedMul128, fitsI128_true _ h1 h2]

theorem checkedDiv128_pos (a b : Int) (hb : 0 < b) :
    checkedDiv128 a b = some (a.tdiv b) := by
  have h0 : ¬ (b = 0) := by omega
  have h1 : ¬ (b = -1) := by omega
  simp [checkedDiv128, h0, h1]

theorem checkedSub32_eq (a b : Int) (h1 : -(2 ^ 31) ≤ a - b)
    (h2 : a - b ≤ 2 ^ 31 - 1) : checkedSub32 a b = some (a - b) := by
  simp [checkedSub32, fitsI32_true _ h1 h2]

theorem checkedAdd32_eq (a b : Int) (h1 : -(2 ^ 31) ≤ a + b)
    (h2 : a + b ≤ 2 ^ 31 - 1) : checkedAdd32 a b = some (a + b) := by
  simp [checkedAdd32, fitsI32_true _ h1 h2]

theorem checkedMul32_eq (a b : Int) (h1 : -(2 ^ 31) ≤ a * b)
    (h2 : a * b ≤ 2 ^ 31 - 1) : checkedMul32 a b = some (a * b) := by
  simp [checkedMul32, fitsI32_true _ h1 h2]

theorem fdiv_gt_iff_tdiv_gt (num den m : Int) (hden : 0 < den) (hm : 0 ≤ m) :
    (num.fdiv den > m ↔ num.tdiv den > m) := by
  by_cases hnum : 0 ≤ num
  · rw [Int.fdiv_eq_tdiv hnum (le_of_lt hden)]
  · push_neg at hnum
    have h1 := fdiv_nonpos_of_nonpos num den (le_of_lt hnum) hden
    have h2 := tdiv_nonpos_of_nonpos num den (le_of_lt hnum) hden
    constructor <;> intro h <;> omega

/-- A settled commitment whose expiry is in the past. -/
def Fixture.settledComm : Core.Commitment :=
  { Fixture.comm with commitment_id := "c2", status := "settled" }

/-- A state holding only the settled commitment. -/
def Fixture.stSettled : Core.CoreState :=
  { Fixture.st with commMap := [Fixture.settledComm] }

/-- Counterexample to C9 as stated: on a settled commitment past its
expiry, `check_violations` returns false (non-active short-circuit) while
`get_violation_details` — which never inspects the status — reports
`has_violation = true`, so the two do not agree for every stored
commitment. -/
theorem C9_counterexample_settled :
    Core.check_violations Fixture.stSettled "c2" 3000000 = some false ∧
    (Core.get_violation_details Fixture.stSettled "c2" 3000000).map
        (fun d => d.1) = some true := by
  constructor <;> decide

/-- Claim C9, amended: for an ACTIVE stored commitment the
`has_violation` component of `get_violation_details` equals the boolean
returned by `check_violations` (for non-active commitments
`check_violations` short-circuits to false while `get_violation_details`
still evaluates the predicates), and unconditionally the `time_remaining`
component is `0` exactly when `now ≥ expires_at` and `expires_at - now`
otherwise. -/
theorem C9_details_agree_when_active (s : Core.CoreState) (id : String)
    (now : Nat) (c : Core.Commitment)
    (hc : Core.readCommitment s id = some c)
    (d : Bool × Bool × Bool × Int × Nat)
    (hd : Core.get_violation_details s id now = some d) :
    (c.status = "active" → Core.check_violations s id now = some d.1) ∧
    (d.2.2.2.2 = 0 ↔ now ≥ c.expires_at) ∧
    (now < c.expires_at → d.2.2.2.2 = c.expires_at - now) := by
  simp only [Core.get_violation_details, hc] at hd
  have hd' := Option.some_inj.mp hd
  subst hd'
  refine ⟨?_, ?_, ?_⟩
  · intro hst
    simp only [Core.check_violations, hc, hst, Core.lossPercentSafe]
    simp only [if_neg (by simp : ¬ ("active" : String) ≠ "active")]
    congr 2
    by_cases ha : c.amount > 0
    · simp only [ha, if_pos]
      exact decide_eq_decide.mpr
        (fdiv_gt_iff_tdiv_gt ((c.amount - c.current_value) * 100) c.amount
          (c.rules.max_loss_percent : Int) ha (Int.natCast_nonneg _))
    · simp [ha]
  · constructor
    · intro h0
      by_cases hlt : now < c.expires_at
      · simp only [hlt, if_pos] at h0
        omega
      · omega
    · intro hge
      simp [Nat.not_lt.mpr hge]
  · intro hlt
    simp [hlt]

/-- Witness for the amended C9: on the active fixture at a time before
expiry, both operations return "no violation" and the remaining time is
the exact difference. -/
theorem C9_details_agree_when_active_witness :
    Core.check_violations Fixture.st "c1" 2000000 = some false ∧
    Core.get_violation_details Fixture.st "c1" 2000000 =
      some (false, false, false, 0, 592000) ∧
    (592000 = 0 ↔ 2000000 ≥ Fixture.comm.expires_at) := by
  have hd : Core.get_violation_details Fixture.st "c1" 2000000 =
      some (false, false, false, 0, 592000) := by decide
  have h := C9_details_agree_when_active Fixture.st "c1" 2000000 Fixture.comm
    (by decide) (false, false, false, 0, 592000) hd
  exact ⟨h.1 (by decide), hd, h.2.1⟩

/-- Claim C10: `attest` always appends exactly one attestation, with
`is_compliant = true` and `timestamp` the ledger time of the call; and no
sequence of `attest` / `record_fees` calls ever changes the set of
non-compliant attestations, so `is_compliant = false` entries can only
come from `record_drawdown`. -/
theorem C10_attest_only_compliant :
    (∀ (atts : List AE.Attestation) (cid : Nat) (ty : String)
        (data : List (String × String)) (vb now : Nat),
      AE.attest atts cid ty data vb now =
        atts ++ [{ commitment_id := cid, timestamp := now,
                   attestation_type := ty, data := data,
                   is_compliant := true, verified_by := vb }]) ∧
    (∀ (s : AE.EngineState) (ops : List AE.AOp),
      (∀ op ∈ ops, op.isDrawdownCall = false) →
      (AE.runOps s ops).atts.filter (fun a => !a.is_compliant) =
        s.atts.filter (fun a => !a.is_compliant)) := by
  constructor
  · intro atts cid ty data vb now
    rfl
  · intro s ops
    induction ops generalizing s with
    | nil => intro _; rfl
    | cons op rest ih =>
      intro hops
      have hop : op.isDrawdownCall = false := hops op (List.mem_cons_self op rest)
      have hrest : ∀ o ∈ rest, o.isDrawdownCall = false :=
        fun o ho => hops o (List.mem_cons_of_mem op ho)
      have hstep : (AE.stepOp s op).atts.filter (fun a => !a.is_compliant) =
          s.atts.filter (fun a => !a.is_compliant) := by
        cases op with
        | attestOp cid ty data vb now =>
          simp [AE.stepOp, AE.attest]
        | recordFeesOp auth c cid caller fee now =>
          simp only [AE.stepOp, AE.record_fees]
          by_cases hauth : auth
          · by_cases hfee : fee ≤ 0
            · simp [hauth, hfee]
            · simp only [hauth, hfee]
              cases hadd : checkedAdd128 s.fees fee with
              | none => simp [hadd]
              | some t => simp [hadd, AE.attest]
          · simp [hauth]
        | recordDrawdownOp auth c cid caller cv now =>
          simp [AE.AOp.isDrawdownCall] at hop
      calc (AE.runOps s (op :: rest)).atts.filter (fun a => !a.is_compliant)
          = (AE.runOps (AE.stepOp s op) rest).atts.filter
              (fun a => !a.is_compliant) := rfl
        _ = (AE.stepOp s op).atts.filter (fun a => !a.is_compliant) :=
              ih (AE.stepOp s op) hrest
        _ = s.atts.filter (fun a => !a.is_compliant) := hstep

/-- Witness for C10: a concrete `attest` call followed by a `record_fees`
call leaves the (empty) set of non-compliant attestations empty. -/
theorem C10_attest_only_compliant_witness :
    AE.attest [] 1 "health_check" [] 4 50 =
      [{ commitment_id := 1, timestamp := 50,
         attestation_type := "health_check", data := [],
         is_compliant := true, verified_by := 4 }] ∧
    (AE.runOps { atts := [], fees := 0, metrics := none }
        [AE.AOp.attestOp 1 "health_check" [] 4 50]).atts.filter
      (fun a => !a.is_compliant) = [] := by
  constructor
  · exact C10_attest_only_compliant.1 [] 1 "health_check" [] 4 50
  · exact C10_attest_only_compliant.2 { atts := [], fees := 0, metrics := none }
      [AE.AOp.attestOp 1 "health_check" [] 4 50]
      (by intro op hop; simp at hop; subst hop; rfl)

/-- The attestation-engine's copy of the fixture rule set. -/
def Fixture.aeRules : AE.CommitmentRules :=
  { duration_days := 30, max_loss_percent := 10,
    commitment_type := "balanced", early_exit_penalty := 5,
    min_fee_threshold := 0 }

/-- An engine-side commitment with a tiny amount of 1 (stored current
value 1). -/
def Fixture.aeCommTiny : AE.Commitment :=
  { commitment_id := 1, owner := 7, nft_token_id := 1,
    rules := Fixture.aeRules, amount := 1, asset_address := 3,
    created_at := 0, expires_at := 2592000, current_value := 1,
    status := "active" }

/-- The engine-side commitment of the spec scenario: amount 1000, max
loss 10%. -/
def Fixture.aeComm1000 : AE.Commitment :=
  { commitment_id := 1, owner := 7, nft_token_id := 1,
    rules := Fixture.aeRules, amount := 1000, asset_address := 3,
    created_at := 0, expires_at := 2592000, current_value := 1000,
    status := "active" }

set_option maxRecDepth 100000 in
/-- Counterexample to C7 as stated: with `amount = 1` and a passed
`current_value` of `-(2^126)`, the loss percent `floor((amount -
current_value) * 100 / amount)` enormously exceeds `max_loss_percent =
10`, yet the `checked_mul` in `record_drawdown` overflows `i128`, its
`unwrap_or(0)` turns the drawdown into `0`, no violation attestation is
appended, the drawdown attestation is marked compliant, and
`verify_compliance` afterwards still returns true. -/
theorem C7_counterexample_overflow :
    Int.fdiv ((Fixture.aeCommTiny.amount - -(2 ^ 126 : Int)) * 100)
        Fixture.aeCommTiny.amount >
      (Fixture.aeCommTiny.rules.max_loss_percent : Int) ∧
    (AE.record_drawdown true Fixture.aeCommTiny [] none 0 1 9
        (-(2 ^ 126)) 100).map
      (fun r => r.1.filter (fun a => !a.is_compliant)) = some [] ∧
    (AE.record_drawdown true Fixture.aeCommTiny [] none 0 1 9
        (-(2 ^ 126)) 100).map
      (fun r => AE.verify_compliance Fixture.aeCommTiny r.1) = some true := by
  refine ⟨?_, ?_, ?_⟩ <;> decide

/-- Claim C7, amended: provided `(amount - current_value) * 100` does not
overflow `i128`, an authorized `record_drawdown` call whose loss percent
`floor((amount - current_value) * 100 / amount)` strictly exceeds
`max_loss_percent` appends a `"violation"`-typed attestation with
`is_compliant = false` followed by a `"drawdown"` attestation with
`is_compliant = false` (the negated violation flag), and
`verify_compliance` on the resulting attestations returns false. -/
theorem C7_record_drawdown_violation (c : AE.Commitment)
    (atts : List AE.Attestation) (sm : Option AE.HealthMetrics) (fees : Int)
    (cid caller : Nat) (cv : Int) (now : Nat)
    (hA : 0 < c.amount)
    (hfit : (c.amount - cv) * 100 ≤ i128Max)
    (hloss : Int.fdiv ((c.amount - cv) * 100) c.amount >
      (c.rules.max_loss_percent : Int)) :
    (AE.record_drawdown true c atts sm fees cid caller cv now).map
        (fun r => r.1) =
      some (atts ++
        [{ commitment_id := cid, timestamp := now,
           attestation_type := "violation", data := [],
           is_compliant := false, verified_by := caller },
         { commitment_id := cid, timestamp := now,
           attestation_type := "drawdown", data := [],
           is_compliant := false, verified_by := caller }]) ∧
    (AE.record_drawdown true c atts sm fees cid caller cv now).map
        (fun r => AE.verify_compliance c r.1) = some false := by
  have hm : (0:Int) ≤ (c.rules.max_loss_percent : Int) := Int.natCast_nonneg _
  have hnum : 0 < c.amount - cv := by
    by_contra hle
    push_neg at hle
    have hmul : (c.amount - cv) * 100 ≤ 0 := by omega
    have := fdiv_nonpos_of_nonpos ((c.amount - cv) * 100) c.amount hmul hA
    omega
  have hfits : fitsI128 (c.amount - cv) = true := by
    simp only [fitsI128, i128Min, i128Max] at *
    simp only [Bool.and_eq_true, decide_eq_true_eq]
    omega
  have hfitm : fitsI128 ((c.amount - cv) * 100) = true := by
    simp only [fitsI128, i128Min, i128Max] at *
    simp only [Bool.and_eq_true, decide_eq_true_eq]
    omega
  have hdd : AE.drawdownPercent c.amount cv =
      Int.tdiv ((c.amount - cv) * 100) c.amount := by
    simp only [AE.drawdownPercent, hA, if_pos, checkedSub128, hfits,
      if_true, Option.getD_some, checkedMul128, hfitm, checkedDiv128]
    have hA0 : ¬ (c.amount = 0) := by omega
    have hA1 : ¬ (c.amount = -1) := by omega
    simp [hA0, hA1]
  have hviol : AE.drawdownPercent c.amount cv >
      (c.rules.max_loss_percent : Int) := by
    rw [hdd]
    exact (fdiv_gt_iff_tdiv_gt _ _ _ hA hm).mp hloss
  have hb : (decide (AE.drawdownPercent c.amount cv >
      (c.rules.max_loss_percent : Int))) = true := decide_eq_true hviol
  refine ⟨?_, ?_⟩
  · simp only [AE.record_drawdown, Bool.not_true, Bool.false_eq_true,
      if_false, hb, if_true, Option.map_some]
    rw [if_pos hviol]
    simp
  · simp only [AE.record_drawdown, Bool.not_true, Bool.false_eq_true,
      if_false, hb, if_true, Option.map_some]
    rw [if_pos hviol]
    simp [AE.verify_compliance]

set_option maxRecDepth 100000 in
/-- Witness for the amended C7: the spec scenario (amount 1000, max loss
10%, drawdown to 850, loss percent 15) appends the violation and
non-compliant drawdown attestations and flips `verify_compliance` to
false. -/
theorem C7_record_drawdown_violation_witness :
    (AE.record_drawdown true Fixture.aeComm1000 [] none 0 1 9 850 100).map
        (fun r => r.1) =
      some
        [{ commitment_id := 1, timestamp := 100,
           attestation_type := "violation", data := [],
           is_compliant := false, verified_by := 9 },
         { commitment_id := 1, timestamp := 100,
           attestation_type := "drawdown", data := [],
           is_compliant := false, verified_by := 9 }] ∧
    (AE.record_drawdown true Fixture.aeComm1000 [] none 0 1 9 850 100).map
        (fun r => AE.verify_compliance Fixture.aeComm1000 r.1) = some false := by
  have h := C7_record_drawdown_violation Fixture.aeComm1000 [] none 0 1 9 850
    100 (by decide) (by decide) (by decide)
  exact ⟨by simpa using h.1, h.2⟩

/-- The spec-scenario commitment with a fee threshold of 1 configured and
a one-day duration. -/
def Fixture.aeCommFee : AE.Commitment :=
  { Fixture.aeComm1000 with
    rules := { Fixture.aeRules with min_fee_threshold := 1 },
    expires_at := 86400 }

/-- A stored violation attestation (`is_compliant = false`). -/
def Fixture.violAtt : AE.Attestation :=
  { commitment_id := 1, timestamp := 5, attestation_type := "violation",
    data := [], is_compliant := false, verified_by := 9 }

set_option maxRecDepth 100000 in
/-- Counterexample to C8 as stated: with three violation attestations,
`min_fee_threshold = 1` and accumulated fees of `2·10^36`, the claimed
formula gives `clamp(100 - 60 + min(100, huge) + 10) = 100`, but in the
code `total_fees * 100` overflows `i128`, the `unwrap_or(0)` collapses the
fee bonus to `0`, and `calculate_compliance_score` returns `50`. -/
theorem C8_counterexample_fee_overflow :
    AE.calculate_compliance_score Fixture.aeCommFee
        [Fixture.violAtt, Fixture.violAtt, Fixture.violAtt]
        (2 * 10 ^ 36) 0 = 50 ∧
    AE.specComplianceScore Fixture.aeCommFee
        [Fixture.violAtt, Fixture.violAtt, Fixture.violAtt]
        (2 * 10 ^ 36) 0 = 100 := by
  constructor <;> decide

/-- The fee-bonus, schedule-bonus and clamping tail of
`calculate_compliance_score`, factored over an abstract intermediate score
`s2` (the value after the violation and loss deductions): under the fee
bound that rules out the `i128` overflow, the checked pipeline equals the
specification's clamped sum. -/
theorem C8_tail (s2 sbase thr fees : Int) (created expires now : Nat)
    (hrel : s2 = sbase) (hlo : -(30000000) ≤ s2) (hhi : s2 ≤ 100)
    (hF1 : 0 ≤ fees)
    (hF2 : fees ≤ 664613997892457936451903530140172288) :
    (let score3 : Int :=
      if thr > 0 && fees > 0 then
        let fee_percent :=
          ((checkedMul128 fees 100).getD 0 |> fun p =>
            (checkedDiv128 p thr).getD 0)
        let bonus : Int := if fee_percent > 100 then 100 else fee_percent
        (checkedAdd32 s2 (wrapI32 bonus)).getD 100
      else s2
    let score4 : Int :=
      if expires > created then
        let total_duration := expires - created
        let elapsed := now - created
        let expected_progress := elapsed * 100 / total_duration
        if expected_progress ≤ 100 then (checkedAdd32 score3 10).getD 100
        else score3
      else score3
    let clamped : Int :=
      if score4 < 0 then 0 else if score4 > 100 then 100 else score4
    ((clamped.toNat : Int) =
        max 0 (min 100 (sbase +
          (if thr > 0 ∧ fees > 0 then
            min 100 (Int.fdiv (fees * 100) thr) else 0) +
          (if created < expires ∧
              (now - created) * 100 / (expires - created) ≤ 100 then 10
           else 0))) ∧
      clamped.toNat ≤ 100)) := by
  subst hrel
  dsimp only
  by_cases hTF : thr > 0 ∧ fees > 0
  · obtain ⟨hT, hFe⟩ := hTF
    have hcond : (decide (thr > 0) && decide (fees > 0)) = true := by
      simp [hT, hFe]
    have eFM : checkedMul128 fees 100 = some (fees * 100) :=
      checkedMul128_eq _ _ (by norm_num [i128Min]; omega)
        (by norm_num [i128Max]; omega)
    have eFD : checkedDiv128 (fees * 100) thr =
        some ((fees * 100).tdiv thr) := checkedDiv128_pos _ _ hT
    have hffd : Int.fdiv (fees * 100) thr = Int.tdiv (fees * 100) thr :=
      Int.fdiv_eq_tdiv (by omega) (by omega)
    have hminx : min 100 (Int.tdiv (fees * 100) thr) =
        if Int.tdiv (fees * 100) thr > 100 then (100:Int)
        else Int.tdiv (fees * 100) thr := by
      split_ifs <;> omega
    have hfp0 : 0 ≤ Int.tdiv (fees * 100) thr :=
      Int.tdiv_nonneg (by omega) (by omega)
    simp only [hcond, eq_self_iff_true, if_true, eFM, Option.getD_some, eFD,
      hffd, hminx, eq_true hT, eq_true hFe, and_self]
    have hb1 : (0:Int) ≤ (if Int.tdiv (fees * 100) thr > 100 then (100:Int)
        else Int.tdiv (fees * 100) thr) := by split_ifs <;> omega
    have hb2 : (if Int.tdiv (fees * 100) thr > 100 then (100:Int)
        else Int.tdiv (fees * 100) thr) ≤ 100 := by split_ifs <;> omega
    generalize hbg : (if Int.tdiv (fees * 100) thr > 100 then (100:Int)
        else Int.tdiv (fees * 100) thr) = bon at hb1 hb2 ⊢
    have eW2 : wrapI32 bon = bon :=
      wrapI32_eq_self bon (by norm_num; omega) (by norm_num; omega)
    have eA2 : checkedAdd32 s2 bon = some (s2 + bon) :=
      checkedAdd32_eq _ _ (by norm_num; omega) (by norm_num; omega)
    have eA3 : checkedAdd32 (s2 + bon) 10 = some (s2 + bon + 10) :=
      checkedAdd32_eq _ _ (by norm_num; omega) (by norm_num; omega)
    simp only [decide_True, Bool.and_self, eq_self_iff_true, if_true, eW2,
      eA2, Option.getD_some, eA3]
    generalize (now - created) * 100 / (expires - created) = pr
    constructor
    · split_ifs <;> omega
    · split_ifs <;> omega
  · have hcond : (decide (thr > 0) && decide (fees > 0)) = false := by
      rcases Decidable.not_and_iff_or_not.mp hTF with h | h <;> simp [h]
    simp only [hcond, Bool.false_eq_true, if_false, if_neg hTF]
    have eA3 : checkedAdd32 s2 10 = some (s2 + 10) :=
      checkedAdd32_eq _ _ (by norm_num; omega) (by norm_num; omega)
    simp only [eA3, Option.getD_some]
    generalize (now - created) * 100 / (expires - created) = pr
    constructor
    · split_ifs <;> omega
    · split_ifs <;> omega

/-- Claim C8, amended: for commitments and histories within the checked
arithmetic's range — at most 10^6 attestations, `amount` within
`±2^119`, `0 ≤ current_value ≤ 2^119` (as every reachable commitment
satisfies), and `0 ≤ total_fees ≤ 2^119` so that `total_fees * 100` does
not overflow `i128` — `calculate_compliance_score` returns a value in
`[0,100]` equal to clamping to `[0,100]` of: 100, minus 20 per
non-compliant or `"violation"`-typed attestation, minus the loss-percent
overage when the recomputed loss percent exceeds `max_loss_percent` and
the amount is positive, plus `min(100, floor(total_fees * 100 /
min_fee_threshold))` when a positive threshold is configured and fees are
positive, plus a flat 10 when elapsed time is within the expected
duration window. -/
theorem C8_compliance_score_formula (c : AE.Commitment)
    (atts : List AE.Attestation) (fees : Int) (now : Nat)
    (hlen : atts.length ≤ 1000000)
    (hA1 : -(2 ^ 119) ≤ c.amount) (hA2 : c.amount ≤ 2 ^ 119)
    (hV1 : 0 ≤ c.current_value) (hV2 : c.current_value ≤ 2 ^ 119)
    (hF1 : 0 ≤ fees) (hF2 : fees ≤ 2 ^ 119) :
    (AE.calculate_compliance_score c atts fees now : Int) =
      AE.specComplianceScore c atts fees now ∧
    AE.calculate_compliance_score c atts fees now ≤ 100 := by
  norm_num at hA1 hA2 hV2 hF2
  have hcount : (atts.countP (fun att =>
      !att.is_compliant || att.attestation_type = "violation") : Int) ≤ 1000000 := by
    have := List.countP_le_length (l := atts) (p := fun att =>
      !att.is_compliant || att.attestation_type = "violation")
    exact_mod_cast le_trans this hlen
  have hcount0 : (0:Int) ≤ (atts.countP (fun att =>
      !att.is_compliant || att.attestation_type = "violation") : Int) :=
    Int.natCast_nonneg _
  simp only [AE.calculate_compliance_score, AE.specComplianceScore]
  set n : Int := (atts.countP (fun att =>
    !att.is_compliant || att.attestation_type = "violation") : Int) with hn
  have eW : wrapI32 n = n := wrapI32_eq_self n (by norm_num; omega) (by norm_num; omega)
  have eM : checkedMul32 n 20 = some (n * 20) :=
    checkedMul32_eq n 20 (by norm_num; omega) (by norm_num; omega)
  have eS : checkedSub32 100 (n * 20) = some (100 - n * 20) :=
    checkedSub32_eq _ _ (by norm_num; omega) (by norm_num; omega)
  simp only [eW, eM, Option.getD_some, eS]
  by_cases hA : c.amount > 0
  · have eD1 : checkedSub128 c.amount c.current_value =
        some (c.amount - c.current_value) :=
      checkedSub128_eq _ _ (by norm_num [i128Min]; omega)
        (by norm_num [i128Max]; omega)
    have eD2 : checkedMul128 (c.amount - c.current_value) 100 =
        some ((c.amount - c.current_value) * 100) :=
      checkedMul128_eq _ _ (by norm_num [i128Min]; omega)
        (by norm_num [i128Max]; omega)
    have eD3 : checkedDiv128 ((c.amount - c.current_value) * 100) c.amount =
        some (Int.tdiv ((c.amount - c.current_value) * 100) c.amount) :=
      checkedDiv128_pos _ _ hA
    have hddEq : AE.drawdownPercent c.amount c.current_value =
        Int.tdiv ((c.amount - c.current_value) * 100) c.amount := by
      simp only [AE.drawdownPercent, eq_true hA, if_true, eD1,
        Option.getD_some, eD2, eD3]
    have hnumle : (c.amount - c.current_value) * 100 ≤ c.amount * 100 := by
      omega
    have hdle : Int.tdiv ((c.amount - c.current_value) * 100) c.amount ≤ 100 := by
      by_cases hs : 0 ≤ (c.amount - c.current_value) * 100
      · rw [Int.tdiv_eq_ediv hs (le_of_lt hA)]
        calc ((c.amount - c.current_value) * 100) / c.amount
            ≤ (c.amount * 100) / c.amount := Int.ediv_le_ediv hA hnumle
          _ = 100 := Int.mul_ediv_cancel_left 100 (by omega)
      · push_neg at hs
        have := tdiv_nonpos_of_nonpos _ _ (le_of_lt hs) hA
        omega
    have hmc : (0:Int) ≤ (c.rules.max_loss_percent : Int) := Int.natCast_nonneg _
    simp only [hddEq]
    by_cases hdd : Int.tdiv ((c.amount - c.current_value) * 100) c.amount >
        (c.rules.max_loss_percent : Int)
    · have hnumpos : 0 < (c.amount - c.current_value) * 100 := by
        by_contra hnp
        push_neg at hnp
        have := tdiv_nonpos_of_nonpos _ _ hnp hA
        omega
      have hfd : Int.fdiv ((c.amount - c.current_value) * 100) c.amount =
          Int.tdiv ((c.amount - c.current_value) * 100) c.amount :=
        Int.fdiv_eq_tdiv (le_of_lt hnumpos) (le_of_lt hA)
      have eO1 : checkedSub128
          (Int.tdiv ((c.amount - c.current_value) * 100) c.amount)
          (c.rules.max_loss_percent : Int) =
          some (Int.tdiv ((c.amount - c.current_value) * 100) c.amount -
            (c.rules.max_loss_percent : Int)) :=
        checkedSub128_eq _ _ (by norm_num [i128Min]; omega)
          (by norm_num [i128Max]; omega)
      have eO2 : wrapI32
          (Int.tdiv ((c.amount - c.current_value) * 100) c.amount -
            (c.rules.max_loss_percent : Int)) =
          Int.tdiv ((c.amount - c.current_value) * 100) c.amount -
            (c.rules.max_loss_percent : Int) :=
        wrapI32_eq_self _ (by norm_num; omega) (by norm_num; omega)
      have eO3 : checkedSub32 (100 - n * 20)
          (Int.tdiv ((c.amount - c.current_value) * 100) c.amount -
            (c.rules.max_loss_percent : Int)) =
          some (100 - n * 20 -
            (Int.tdiv ((c.amount - c.current_value) * 100) c.amount -
              (c.rules.max_loss_percent : Int))) :=
        checkedSub32_eq _ _ (by norm_num; omega) (by norm_num; omega)
      simp only [hfd, eq_true hA, eq_true hdd, if_true, true_and, and_self,
        eO1, Option.getD_some, eO2, eO3]
      generalize hdg : Int.tdiv ((c.amount - c.current_value) * 100) c.amount
        = dd at hdd hdle ⊢
      exact C8_tail
        (100 - n * 20 - (dd - (c.rules.max_loss_percent : Int)))
        (100 - 20 * n - (dd - (c.rules.max_loss_percent : Int)))
        c.rules.min_fee_threshold fees c.created_at c.expires_at now
        (by omega) (by omega) (by omega) hF1 hF2
    · have hiff := fdiv_gt_iff_tdiv_gt ((c.amount - c.current_value) * 100)
        c.amount (c.rules.max_loss_percent : Int) hA hmc
      have hfneg : ¬ (Int.fdiv ((c.amount - c.current_value) * 100) c.amount >
          (c.rules.max_loss_percent : Int)) := fun h => hdd (hiff.mp h)
      have hcondF : (c.amount > 0 ∧
          Int.fdiv ((c.amount - c.current_value) * 100) c.amount >
            (c.rules.max_loss_percent : Int)) = False :=
        eq_false (fun h => hfneg h.2)
      simp only [eq_false hdd, hcondF, if_false, sub_zero, ite_self]
      exact C8_tail (100 - n * 20) (100 - 20 * n)
        c.rules.min_fee_threshold fees c.created_at c.expires_at now
        (by omega) (by omega) (by omega) hF1 hF2
  · have hAno : (c.amount > 0) = False := eq_false hA
    simp only [hAno, if_false, false_and, sub_zero]
    exact C8_tail (100 - n * 20) (100 - 20 * n)
      c.rules.min_fee_threshold fees c.created_at c.expires_at now
      (by omega) (by omega) (by omega) hF1 hF2

set_option maxRecDepth 100000 in
/-- Witness for the amended C8: one violation attestation, fees 50
against threshold 1 (fee bonus capped at 100) and an on-schedule clock
give `clamp(100 - 20 + 100 + 10) = 100` on both the code and the
formula. -/
theorem C8_compliance_score_formula_witness :
    (AE.calculate_compliance_score Fixture.aeCommFee [Fixture.violAtt] 50 0 : Int) =
      AE.specComplianceScore Fixture.aeCommFee [Fixture.violAtt] 50 0 ∧
    AE.calculate_compliance_score Fixture.aeCommFee [Fixture.violAtt] 50 0 ≤ 100 :=
  C8_compliance_score_formula Fixture.aeCommFee [Fixture.violAtt] 50 0
    (by decide) (by decide) (by decide) (by decide) (by decide)
    (by decide) (by decide)
